import Mathlib

/-!
# Verification of the Flick phone call-session controller

Shallow embedding of `src/apps/phone/phone_helper.py`: the daemon loop
(`daemon_mode`), command intake, call-history persistence
(`load_history`/`save_history`/`add_to_history`), audio routing
(`set_speaker_mode`/`set_mute`/`setup_call_audio`/`teardown_call_audio`) and
radio-technology switching (`switch_to_2g_for_call`/`restore_lte_after_call`).

Modelling conventions:
* Call states are the raw strings the Python code compares against
  ("idle", "incoming", "dialing", "alerting", "active").
* Timestamps are natural-number seconds (`time.time()`); history timestamps
  (`datetime.now().isoformat()`) are likewise modelled as the poll time.
* External D-Bus requests, `pactl` invocations, sleeps and file writes are
  recorded in an effect trace, in the order the code issues them.
* The modem's radio-settings property is modelled as applied when set
  (`set_radio_mode`'s dbus-send delivered); `get_radio_mode` reads it back.
* The command mailbox file `/tmp/flick_phone_cmd` is an `Option` slot; its
  content is classified by how `json.load` / `dict.get` treat it.
-/

namespace Flick

/-- A persisted call-history record (`add_to_history` builds these dicts). -/
structure HistoryEntry where
  number : String
  direction : String
  duration : Nat
  timestamp : Nat
deriving DecidableEq, Repr

/-- `save_history`: the contents actually persisted to `call_history.json` —
`json.dump(history[:100], f)` keeps only the first 100 entries. -/
def save_history (history : List HistoryEntry) : List HistoryEntry :=
  history.take 100

/-- `add_to_history`: load the persisted list, insert the new entry at
index 0 (`history.insert(0, entry)`), then persist via `save_history`.
`stored` is the currently persisted list; result is the newly persisted one. -/
def add_to_history (number direction : String) (duration now : Nat)
    (stored : List HistoryEntry) : List HistoryEntry :=
  save_history ({ number := number, direction := direction,
                  duration := duration, timestamp := now } :: stored)

/-- Radio technology preference as parsed by `get_radio_mode` ("lte", "gsm",
"umts", anything else / failure is "unknown"). -/
inductive RadioMode where
  | lte
  | gsm
  | umts
  | unknown
deriving DecidableEq, Repr

/-- One externally observable side effect, in program order. -/
inductive Effect where
  /-- `run_pactl args` -/
  | pactl (args : List String)
  /-- `get_radio_mode`'s dbus-send GetProperties query -/
  | radioGet
  /-- `set_radio_mode mode`'s dbus-send SetProperty request -/
  | radioSet (mode : RadioMode)
  /-- `time.sleep(2)` after a radio switch -/
  | settleSleep
  /-- `OfonoManager.dial`: D-Bus `Dial(number, clir)` -/
  | dbusDial (number clir : String)
  /-- `OfonoManager.hangup`: D-Bus `HangupAll` -/
  | dbusHangupAll
  /-- `OfonoManager.answer`: D-Bus `Answer` on a call path -/
  | dbusAnswer (path : String)
  /-- `trigger_haptic` -/
  | haptic
  /-- `play_ringtone` -/
  | ringStart
  /-- `stop_ringtone` -/
  | ringStop
  /-- `save_history`'s write of the persisted list -/
  | historyWrite (entries : List HistoryEntry)
  /-- `write_status`'s status-snapshot write -/
  | statusWrite (state number : String) (duration : Nat)
deriving DecidableEq, Repr

/-- `get_radio_mode`: queries the modem and parses the current preference. -/
def get_radio_mode (m : RadioMode) : RadioMode := m

/-- `switch_to_2g_for_call`: if the current mode is not "gsm", set "gsm" and
`time.sleep(2)`; otherwise do nothing beyond the query.
Returns the resulting mode and the effect trace. -/
def switch_to_2g_for_call (m : RadioMode) : RadioMode × List Effect :=
  if get_radio_mode m ≠ RadioMode.gsm then
    (RadioMode.gsm, [Effect.radioGet, Effect.radioSet RadioMode.gsm, Effect.settleSleep])
  else
    (m, [Effect.radioGet])

/-- `restore_lte_after_call`: if the current mode is "gsm", set "lte";
otherwise do nothing beyond the query. -/
def restore_lte_after_call (m : RadioMode) : RadioMode × List Effect :=
  if get_radio_mode m = RadioMode.gsm then
    (RadioMode.lte, [Effect.radioGet, Effect.radioSet RadioMode.lte])
  else
    (m, [Effect.radioGet])

/-- `set_speaker_mode(enabled)`: the ordered `pactl` argument lists issued. -/
def set_speaker_mode (enabled : Bool) : List (List String) :=
  if enabled then
    [["set-source-mute", "source.droid", "0"],
     ["set-sink-port", "sink.primary_output", "output-speaker"],
     ["set-source-port", "source.droid", "input-builtin_mic"]]
  else
    [["set-sink-port", "sink.primary_output", "output-earpiece"],
     ["set-source-port", "source.droid", "input-voice_call"]]

/-- `set_mute(enabled)`: muting first disables the speaker route
(`set_speaker_mode(False)`), then mutes the source. -/
def set_mute (enabled : Bool) : List (List String) :=
  if enabled then
    set_speaker_mode false ++ [["set-source-mute", "source.droid", "1"]]
  else
    [["set-source-mute", "source.droid", "0"]]

/-- `setup_call_audio`: the ordered `pactl` commands entering the voice-call
profile. -/
def setup_call_audio : List (List String) :=
  [["set-card-profile", "droid_card.primary", "voicecall"],
   ["set-sink-port", "sink.primary_output", "output-earpiece"],
   ["set-source-port", "source.droid", "input-voice_call"],
   ["set-sink-mute", "sink.primary_output", "0"],
   ["set-sink-volume", "sink.primary_output", "80%"],
   ["set-source-mute", "source.droid", "0"],
   ["set-source-volume", "source.droid", "100%"]]

/-- `teardown_call_audio`: the ordered `pactl` commands restoring defaults. -/
def teardown_call_audio : List (List String) :=
  [["set-card-profile", "droid_card.primary", "default"],
   ["set-sink-port", "sink.primary_output", "output-speaker"],
   ["set-source-port", "source.droid", "input-builtin_mic"]]

/-- Audio output port of `sink.primary_output`. -/
inductive OutputPort where
  | earpiece
  | speaker
deriving DecidableEq, Repr

/-- Audio input port of `source.droid`. -/
inductive InputPort where
  | builtinMic
  | voiceCallMic
deriving DecidableEq, Repr

/-- The audio service's routing state as driven by the `pactl` commands the
helper issues (§3 AudioRoute). -/
structure AudioRoute where
  profile : String
  outputPort : OutputPort
  inputPort : InputPort
  micMuted : Bool
  sinkMuted : Bool
deriving DecidableEq, Repr

/-- Interpretation of one `pactl` argument list on the audio route. -/
def applyPactl (r : AudioRoute) : List String → AudioRoute
  | ["set-sink-port", "sink.primary_output", p] =>
      if p = "output-speaker" then { r with outputPort := OutputPort.speaker }
      else if p = "output-earpiece" then { r with outputPort := OutputPort.earpiece }
      else r
  | ["set-source-port", "source.droid", p] =>
      if p = "input-builtin_mic" then { r with inputPort := InputPort.builtinMic }
      else if p = "input-voice_call" then { r with inputPort := InputPort.voiceCallMic }
      else r
  | ["set-source-mute", "source.droid", v] =>
      if v = "1" then { r with micMuted := true }
      else if v = "0" then { r with micMuted := false }
      else r
  | ["set-sink-mute", "sink.primary_output", v] =>
      if v = "1" then { r with sinkMuted := true }
      else if v = "0" then { r with sinkMuted := false }
      else r
  | ["set-card-profile", "droid_card.primary", p] => { r with profile := p }
  | _ => r

/-- Apply an ordered list of `pactl` commands. -/
def applyPactlList (r : AudioRoute) (cmds : List (List String)) : AudioRoute :=
  cmds.foldl applyPactl r

/-- Contents of the command mailbox `/tmp/flick_phone_cmd`, classified by how
`daemon_mode`'s reader treats them:
* `notJson` — content `json.load` rejects (raises before `os.remove` runs);
* `notDict` — valid JSON that is not an object (`cmd.get` raises, after
  `os.remove` already ran);
* `dict action number enabled` — a JSON object; the three fields are what
  `cmd.get("action", "")`, `cmd.get("number", "")` and
  `cmd.get("enabled", False)` return (defaults when absent). -/
inductive MailboxContent where
  | notJson
  | notDict
  | dict (action : String) (number : String) (enabled : Bool)
deriving DecidableEq, Repr

/-- One call as reported by `OfonoManager.get_calls`: object path, `State`
property, `LineIdentification` property. -/
structure OfonoCall where
  path : String
  state : String
  number : String
deriving DecidableEq, Repr

/-- The controller's mutable state plus the external files and modem-side
state it drives: `last_state`, `call_start`, `call_number` of `daemon_mode`;
the persisted history file; the mailbox file; the modem's radio preference;
`OfonoManager.active_call_path`. -/
structure World where
  lastState : String
  callStart : Option Nat
  callNumber : String
  history : List HistoryEntry
  mailbox : Option MailboxContent
  radio : RadioMode
  ofonoActivePath : Option String
deriving DecidableEq, Repr

/-- Per-cycle external inputs: the clock, the modem's current call list, and
the call path a successful D-Bus `Dial` returns (`none` when `Dial` fails). -/
structure PollEnv where
  now : Nat
  calls : List OfonoCall
  dialResult : Option String
deriving DecidableEq, Repr

/-- `OfonoManager.get_status`'s reported state: first call's `State`, else
"idle". -/
def pollState (env : PollEnv) : String :=
  match env.calls with
  | [] => "idle"
  | c :: _ => c.state

/-- `OfonoManager.get_status`'s reported number: first call's
`LineIdentification`, else "". -/
def pollNumber (env : PollEnv) : String :=
  match env.calls with
  | [] => ""
  | c :: _ => c.number

/-- `get_status` also records the first call's path in `active_call_path`. -/
def pollActivePath (w : World) (env : PollEnv) : Option String :=
  match env.calls with
  | [] => w.ofonoActivePath
  | c :: _ => some c.path

/-- `int(time.time() - call_start) if call_start else 0`: Python truthiness —
`None` and `0` both yield 0. -/
def durationTruthy (now : Nat) (callStart : Option Nat) : Nat :=
  match callStart with
  | none => 0
  | some t => if t = 0 then 0 else now - t

/-- `OfonoManager.answer`'s call-path resolution: keep `active_call_path` if
set, otherwise the first call whose `State` is "incoming". -/
def ofono_answer_path (activePath : Option String) (calls : List OfonoCall) :
    Option String :=
  match activePath with
  | some p => some p
  | none => (calls.find? fun c => c.state = "incoming").map OfonoCall.path

/-- `OfonoManager.answer`'s effects: a D-Bus `Answer` on the resolved path,
or nothing at all when no call is tracked as incoming (`return False`). -/
def ofono_answer_effects (activePath : Option String) (calls : List OfonoCall) :
    List Effect :=
  match ofono_answer_path activePath calls with
  | some p => [Effect.dbusAnswer p]
  | none => []

/-- The `last_state` values on which `daemon_mode` treats a newly polled
"idle" as a call end. -/
def callEndStates : List String := ["active", "alerting", "dialing", "incoming"]

/-- The command-intake phase of one `daemon_mode` iteration (the
`if os.path.exists(CMD_FILE)` block): read the mailbox once, delete the file
(unless `json.load` raised first), dispatch on `action`. -/
def checkCommands (w : World) (env : PollEnv) : World × List Effect :=
  match w.mailbox with
  | none => (w, [])
  | some MailboxContent.notJson =>
      -- json.load raises before os.remove runs: the mailbox file survives
      (w, [])
  | some MailboxContent.notDict =>
      -- json.load succeeded and os.remove ran; cmd.get then raises and the
      -- exception handler swallows it
      ({ w with mailbox := none }, [])
  | some (MailboxContent.dict action number enabled) =>
      let w' := { w with mailbox := none }
      if action = "dial" then
        if number = "" then (w', [])
        else
          ({ w' with
              radio := (switch_to_2g_for_call w'.radio).1,
              ofonoActivePath := match env.dialResult with
                                 | some p => some p
                                 | none => w'.ofonoActivePath,
              callNumber := number,
              callStart := some env.now },
           (switch_to_2g_for_call w'.radio).2 ++ [Effect.dbusDial number "default"])
      else if action = "hangup" then
        ({ w' with ofonoActivePath := none }, [Effect.dbusHangupAll])
      else if action = "answer" then
        ({ w' with
            ofonoActivePath := ofono_answer_path w'.ofonoActivePath env.calls,
            callStart := some env.now },
         ofono_answer_effects w'.ofonoActivePath env.calls)
      else if action = "speaker" then
        (w', (set_speaker_mode enabled).map Effect.pactl)
      else if action = "mute" then
        (w', (set_mute enabled).map Effect.pactl)
      else (w', [])

/-- The polling phase of one `daemon_mode` iteration: `get_status`, the three
transition branches, and the unconditional status-snapshot write. -/
def pollPhase (w : World) (env : PollEnv) : World × List Effect :=
  let current := pollState env
  let endFire : Bool := decide (w.lastState ∈ callEndStates) && decide (current = "idle")
  let incomingFire : Bool := decide (current = "incoming") && decide (w.lastState = "idle")
  let activeFire : Bool := decide (current = "active") && decide (w.lastState ≠ "active")
  let dir := if w.lastState = "dialing" then "outgoing" else "incoming"
  let hist' := if endFire then
      add_to_history w.callNumber dir (durationTruthy env.now w.callStart) env.now w.history
    else w.history
  let callStart' := if endFire then none else w.callStart
  let callNumber' := if endFire then ""
    else if incomingFire then pollNumber env
    else w.callNumber
  let radio' := if endFire then (restore_lte_after_call w.radio).1
    else if incomingFire then (switch_to_2g_for_call w.radio).1
    else w.radio
  let activeEff := if activeFire then
      Effect.ringStop :: setup_call_audio.map Effect.pactl
    else []
  let endEff := if endFire then
      Effect.historyWrite hist' :: Effect.ringStop ::
        teardown_call_audio.map Effect.pactl ++ (restore_lte_after_call w.radio).2
    else []
  let incomingEff := if incomingFire then
      Effect.haptic :: (switch_to_2g_for_call w.radio).2 ++ [Effect.ringStart]
    else []
  ({ lastState := current,
     callStart := callStart',
     callNumber := callNumber',
     history := hist',
     mailbox := w.mailbox,
     radio := radio',
     ofonoActivePath := pollActivePath w env },
   activeEff ++ endEff ++ incomingEff ++
     [Effect.statusWrite current (pollNumber env) (durationTruthy env.now callStart')])

/-- One full iteration of `daemon_mode`'s `while True` loop: command intake
followed by the poll phase. -/
def daemonStep (w : World) (env : PollEnv) : World × List Effect :=
  let cw := checkCommands w env
  let pw := pollPhase cw.1 env
  (pw.1, cw.2 ++ pw.2)

/-- Number of radio-technology switch requests (`set_radio_mode` calls) in an
effect trace. -/
def countRadioSets (effs : List Effect) : Nat :=
  effs.countP fun e => match e with
    | Effect.radioSet _ => true
    | _ => false

/-! ## Concrete worlds and environments used by counterexamples and witnesses -/

/-- Initial daemon state with a pending Dial command for `n`. -/
def dialScenarioStart (n : String) (h : List HistoryEntry) (m : RadioMode) : World :=
  { lastState := "idle", callStart := none, callNumber := "", history := h,
    mailbox := some (MailboxContent.dict "dial" n false),
    radio := m, ofonoActivePath := none }

/-- An environment with no reported calls. -/
def envNoCall : PollEnv := { now := 25, calls := [], dialResult := none }

/-- Daemon state with a pending Answer command and no call tracked. -/
def wAnswerCex : World :=
  { lastState := "idle", callStart := none, callNumber := "7", history := [],
    mailbox := some (MailboxContent.dict "answer" "" false),
    radio := RadioMode.lte, ofonoActivePath := none }

/-- Daemon state whose mailbox holds content `json.load` rejects. -/
def wMalformedCex : World :=
  { lastState := "idle", callStart := none, callNumber := "", history := [],
    mailbox := some MailboxContent.notJson,
    radio := RadioMode.lte, ofonoActivePath := none }

/-- Daemon state whose mailbox holds a valid Hangup command. -/
def wHangupCex : World :=
  { wMalformedCex with mailbox := some (MailboxContent.dict "hangup" "" false) }

/-- Daemon state in the middle of an outgoing (dialing) call. -/
def wDialingMid : World :=
  { lastState := "dialing", callStart := some 10, callNumber := "555", history := [],
    mailbox := none, radio := RadioMode.gsm, ofonoActivePath := some "/c0" }

/-! ## Helper lemmas -/

/-- Command intake never changes `last_state`. -/
theorem checkCommands_lastState (w : World) (env : PollEnv) :
    (checkCommands w env).1.lastState = w.lastState := by
  unfold checkCommands
  cases hmb : w.mailbox with
  | none => rfl
  | some c =>
    cases c with
    | notJson => rfl
    | notDict => rfl
    | dict a n b =>
      dsimp only
      split_ifs <;> rfl

/-- Command intake never changes the persisted history. -/
theorem checkCommands_history (w : World) (env : PollEnv) :
    (checkCommands w env).1.history = w.history := by
  unfold checkCommands
  cases hmb : w.mailbox with
  | none => rfl
  | some c =>
    cases c with
    | notJson => rfl
    | notDict => rfl
    | dict a n b =>
      dsimp only
      split_ifs <;> rfl

/-- With an empty mailbox, command intake is a no-op. -/
theorem checkCommands_none (w : World) (env : PollEnv) (h : w.mailbox = none) :
    checkCommands w env = (w, []) := by
  unfold checkCommands
  rw [h]

/-- `switch_to_2g_for_call` always ends in GSM. -/
theorem switch2g_fst (m : RadioMode) : (switch_to_2g_for_call m).1 = RadioMode.gsm := by
  cases m <;> rfl

/-- The trace of `switch_to_2g_for_call`, case-split on the current mode. -/
theorem switch2g_snd (m : RadioMode) :
    (switch_to_2g_for_call m).2 =
      (if m = RadioMode.gsm then [Effect.radioGet]
       else [Effect.radioGet, Effect.radioSet RadioMode.gsm, Effect.settleSleep]) := by
  cases m <;> rfl

/-- An append places the entry at index 0 and keeps the 99 most recent old
entries, in order. -/
theorem add_to_history_eq (n d : String) (du ts : Nat) (l : List HistoryEntry) :
    add_to_history n d du ts l
      = { number := n, direction := d, duration := du, timestamp := ts } :: l.take 99 := rfl

/-- The persisted result of an append never exceeds 100 entries. -/
theorem add_to_history_length_le (n d : String) (du ts : Nat) (l : List HistoryEntry) :
    (add_to_history n d du ts l).length ≤ 100 := by
  simp [add_to_history, save_history]

/-- Characterisation of the poll phase on a call-end transition
(`last_state` in-call, newly polled state "idle"). -/
theorem pollPhase_end (w : World) (env : PollEnv)
    (hlast : w.lastState ∈ callEndStates) (hcur : pollState env = "idle") :
    (pollPhase w env).1 =
      { lastState := "idle",
        callStart := none,
        callNumber := "",
        history := add_to_history w.callNumber
          (if w.lastState = "dialing" then "outgoing" else "incoming")
          (durationTruthy env.now w.callStart) env.now w.history,
        mailbox := w.mailbox,
        radio := (restore_lte_after_call w.radio).1,
        ofonoActivePath := pollActivePath w env } := by
  simp only [pollPhase, hcur, decide_eq_true hlast]
  rfl

/-! ## Claim theorems -/

/-- C1: on every poll cycle whose previously observed state is one of
active/alerting/dialing/incoming and whose newly polled state is idle, the
controller appends exactly one HistoryEntry at the front of the persisted
store; its direction is "outgoing" iff the previous state was "dialing"; its
duration is `now − startedAt` when the session's `startedAt` (after this
cycle's command intake) is present — and positive, as every real `time.time()`
value is — and 0 when it is absent; and the session fields `call_number` and
`call_start` are cleared. -/
theorem call_end_appends_one_entry (w : World) (env : PollEnv)
    (hlast : w.lastState ∈ callEndStates) (hcur : pollState env = "idle") :
    ∃ e : HistoryEntry,
      (daemonStep w env).1.history = e :: w.history.take 99 ∧
      e.number = (checkCommands w env).1.callNumber ∧
      (e.direction = "outgoing" ↔ w.lastState = "dialing") ∧
      ((checkCommands w env).1.callStart = none → e.duration = 0) ∧
      (∀ t, (checkCommands w env).1.callStart = some t → 0 < t →
        e.duration = env.now - t) ∧
      (daemonStep w env).1.callStart = none ∧
      (daemonStep w env).1.callNumber = "" := by
  have hlast' : (checkCommands w env).1.lastState ∈ callEndStates := by
    rw [checkCommands_lastState]; exact hlast
  have h1 : (daemonStep w env).1 = (pollPhase (checkCommands w env).1 env).1 := rfl
  refine ⟨{ number := (checkCommands w env).1.callNumber,
            direction := if w.lastState = "dialing" then "outgoing" else "incoming",
            duration := durationTruthy env.now (checkCommands w env).1.callStart,
            timestamp := env.now }, ?_, rfl, ?_, ?_, ?_, ?_, ?_⟩
  · rw [h1, pollPhase_end _ env hlast' hcur]
    dsimp only
    rw [checkCommands_lastState, checkCommands_history, add_to_history_eq]
  · dsimp only
    by_cases h : w.lastState = "dialing"
    · rw [if_pos h]; exact iff_of_true rfl h
    · rw [if_neg h]; exact iff_of_false (by decide) h
  · intro h
    dsimp only
    rw [h]
    rfl
  · intro t ht hpos
    dsimp only
    rw [ht]
    simp [durationTruthy, Nat.pos_iff_ne_zero.mp hpos]
  · rw [h1, pollPhase_end _ env hlast' hcur]
  · rw [h1, pollPhase_end _ env hlast' hcur]

/-- Witness for C1: concrete outgoing call ending at time 25 with
`call_start = 10`. -/
theorem call_end_appends_one_entry_witness :
    ∃ e : HistoryEntry,
      (daemonStep wDialingMid envNoCall).1.history = e :: wDialingMid.history.take 99 ∧
      e.number = (checkCommands wDialingMid envNoCall).1.callNumber ∧
      (e.direction = "outgoing" ↔ wDialingMid.lastState = "dialing") ∧
      ((checkCommands wDialingMid envNoCall).1.callStart = none → e.duration = 0) ∧
      (∀ t, (checkCommands wDialingMid envNoCall).1.callStart = some t → 0 < t →
        e.duration = envNoCall.now - t) ∧
      (daemonStep wDialingMid envNoCall).1.callStart = none ∧
      (daemonStep wDialingMid envNoCall).1.callNumber = "" :=
  call_end_appends_one_entry wDialingMid envNoCall (by decide) rfl

/-- Environments for the Idle → Dialing → Idle scenario at concrete times. -/
def envDial1 : PollEnv := { now := 10, calls := [], dialResult := some "/c0" }

/-- Second cycle of the dial scenario: the modem reports a dialing call. -/
def envDial2 : PollEnv :=
  { now := 11, calls := [{ path := "/c0", state := "dialing", number := "123" }],
    dialResult := none }

/-- Third cycle of the dial scenario: the call is gone. -/
def envDial3 : PollEnv := { now := 25, calls := [], dialResult := none }

/-- C2 counterexample: a Dial command processed at time 10, polled states
Idle → Dialing → Idle with no Active ever observed. The code sets
`call_start` already when the Dial command is processed, and the resulting
HistoryEntry has duration 15 = 25 − 10, not 0. -/
theorem dial_scenario_counterexample :
    pollState envDial1 = "idle" ∧ pollState envDial2 = "dialing" ∧
    pollState envDial3 = "idle" ∧
    (daemonStep (dialScenarioStart "123" [] RadioMode.lte) envDial1).1.callStart = some 10 ∧
    ((daemonStep (daemonStep (daemonStep (dialScenarioStart "123" [] RadioMode.lte)
        envDial1).1 envDial2).1 envDial3).1.history.map fun e => e.duration) = [15] ∧
    (15 : Nat) ≠ 0 := by decide

/-- C2 (amended): the session's `startedAt` is set when the Dial command is
processed (to the command-processing time), not on reaching Active; for the
poll sequence Idle → Dialing → Idle the single resulting HistoryEntry is
outgoing with duration equal to the time elapsed from the Dial command to the
Idle observation. -/
theorem dial_sets_startedAt_at_command (n : String) (h : List HistoryEntry)
    (m : RadioMode) (p : String) (t0 t1 t2 : Nat) (hn : n ≠ "") (ht0 : 0 < t0) :
    (daemonStep (dialScenarioStart n h m) ⟨t0, [], some p⟩).1.callStart = some t0 ∧
    (daemonStep (daemonStep (daemonStep (dialScenarioStart n h m) ⟨t0, [], some p⟩).1
        ⟨t1, [{ path := p, state := "dialing", number := n }], none⟩).1
        ⟨t2, [], none⟩).1.history
      = { number := n, direction := "outgoing", duration := t2 - t0,
          timestamp := t2 } :: h.take 99 := by
  have ht0' : t0 ≠ 0 := Nat.pos_iff_ne_zero.mp ht0
  cases m <;>
    simp [daemonStep, checkCommands, pollPhase, dialScenarioStart, pollState,
      pollNumber, pollActivePath, durationTruthy, add_to_history, save_history,
      switch_to_2g_for_call, restore_lte_after_call, get_radio_mode,
      callEndStates, hn, ht0']

/-- Witness for C2 (amended): the concrete scenario of the counterexample. -/
theorem dial_sets_startedAt_at_command_witness :
    (daemonStep (dialScenarioStart "123" [] RadioMode.lte) ⟨10, [], some "/c0"⟩).1.callStart
      = some 10 ∧
    (daemonStep (daemonStep (daemonStep (dialScenarioStart "123" [] RadioMode.lte)
        ⟨10, [], some "/c0"⟩).1
        ⟨11, [{ path := "/c0", state := "dialing", number := "123" }], none⟩).1
        ⟨25, [], none⟩).1.history
      = { number := "123", direction := "outgoing", duration := 15,
          timestamp := 25 } :: ([] : List HistoryEntry).take 99 :=
  dial_sets_startedAt_at_command "123" [] RadioMode.lte "/c0" 10 11 25
    (by decide) (by decide)

/-- A sample history entry for witnesses. -/
def sampleEntry : HistoryEntry :=
  { number := "555", direction := "incoming", duration := 3, timestamp := 7 }

/-- C3: after any nonempty sequence of appends, from any starting store
contents, the persisted store holds at most 100 entries; each append inserts
the new entry at index 0 with the surviving old entries behind it in their
previous order; and the truncation to 100 happens inside `save_history` (the
write), applied to the full, untruncated in-memory insertion. -/
theorem history_store_invariant (stored : List HistoryEntry)
    (es : List HistoryEntry) (hne : es ≠ []) :
    (es.foldl (fun acc e => add_to_history e.number e.direction e.duration e.timestamp acc)
        stored).length ≤ 100 ∧
    (∀ (e : HistoryEntry) (acc : List HistoryEntry),
        add_to_history e.number e.direction e.duration e.timestamp acc = e :: acc.take 99) ∧
    (∀ (e : HistoryEntry) (acc : List HistoryEntry),
        add_to_history e.number e.direction e.duration e.timestamp acc
          = save_history (e :: acc)) := by
  refine ⟨?_, fun e acc => rfl, fun e acc => rfl⟩
  have aux : ∀ (l acc : List HistoryEntry), acc.length ≤ 100 →
      (l.foldl (fun acc e => add_to_history e.number e.direction e.duration e.timestamp acc)
          acc).length ≤ 100 := by
    intro l
    induction l with
    | nil => intro acc hacc; exact hacc
    | cons e rest ih =>
      intro acc _
      rw [List.foldl_cons]
      exact ih _ (add_to_history_length_le _ _ _ _ _)
  cases es with
  | nil => exact absurd rfl hne
  | cons e rest =>
    rw [List.foldl_cons]
    exact aux rest _ (add_to_history_length_le _ _ _ _ _)

/-- Witness for C3: a single append to the empty store. -/
theorem history_store_invariant_witness :
    ([sampleEntry] : List HistoryEntry) ≠ [] ∧
    (([sampleEntry].foldl
        (fun acc e => add_to_history e.number e.direction e.duration e.timestamp acc)
        ([] : List HistoryEntry)).length ≤ 100 ∧
     (∀ (e : HistoryEntry) (acc : List HistoryEntry),
        add_to_history e.number e.direction e.duration e.timestamp acc = e :: acc.take 99) ∧
     (∀ (e : HistoryEntry) (acc : List HistoryEntry),
        add_to_history e.number e.direction e.duration e.timestamp acc
          = save_history (e :: acc))) :=
  ⟨by decide, history_store_invariant [] [sampleEntry] (by decide)⟩

/-- C4: `set_mute(True)` issues exactly the `set_speaker_mode(False)` command
sequence before the source-mute command, and whatever the prior route was,
after it completes the output port is the earpiece (speaker disabled). -/
theorem set_mute_true_disables_speaker (r : AudioRoute) :
    set_mute true = set_speaker_mode false ++ [["set-source-mute", "source.droid", "1"]] ∧
    (applyPactlList r (set_mute true)).outputPort = OutputPort.earpiece ∧
    (applyPactlList r (set_mute true)).micMuted = true :=
  ⟨rfl, rfl, rfl⟩

/-- C5 (code bug): when the mailbox holds content `json.load` rejects, the
command phase performs no side effect and the loop continues, but the file is
NOT discarded — `os.remove` sits after `json.load`, so the exception skips
it and the same content is observed again on every later cycle. -/
theorem malformed_mailbox_not_discarded :
    (checkCommands wMalformedCex envNoCall).2 = [] ∧
    (checkCommands wMalformedCex envNoCall).1 = wMalformedCex ∧
    (daemonStep wMalformedCex envNoCall).1.mailbox = some MailboxContent.notJson ∧
    (daemonStep (daemonStep wMalformedCex envNoCall).1 envNoCall).1.mailbox
      = some MailboxContent.notJson ∧
    (checkCommands wHangupCex envNoCall).1.mailbox = none := by
  decide

/-- C6 counterexample: an Answer command with no call tracked as incoming
(`active_call_path` unset, no call reported) still changes the session state:
`call_start` is set unconditionally after `ofono.answer()` returns. -/
theorem answer_untracked_modifies_session :
    wAnswerCex.mailbox = some (MailboxContent.dict "answer" "" false) ∧
    wAnswerCex.ofonoActivePath = none ∧
    envNoCall.calls = [] ∧
    wAnswerCex.callStart = none ∧
    (checkCommands wAnswerCex envNoCall).1.callStart = some 25 ∧
    (checkCommands wAnswerCex envNoCall).1.callStart ≠ wAnswerCex.callStart := by
  decide

/-- C6 (amended): an Answer command received while no call is tracked as
incoming issues no Answer request to the modem (a silent no-op failure, not
fatal) and leaves the session number unchanged, but it unconditionally sets
the session's `startedAt` to the command-processing time. -/
theorem answer_untracked_noop_but_sets_startedAt (w : World) (env : PollEnv)
    (n : String) (b : Bool)
    (hmb : w.mailbox = some (MailboxContent.dict "answer" n b))
    (hap : w.ofonoActivePath = none)
    (hnoinc : ∀ c ∈ env.calls, c.state ≠ "incoming") :
    (checkCommands w env).2 = [] ∧
    (checkCommands w env).1.callNumber = w.callNumber ∧
    (checkCommands w env).1.ofonoActivePath = none ∧
    (checkCommands w env).1.mailbox = none ∧
    (checkCommands w env).1.callStart = some env.now := by
  have hfind : env.calls.find? (fun c => c.state = "incoming") = none := by
    rw [List.find?_eq_none]
    intro c hc
    simpa using hnoinc c hc
  simp [checkCommands, hmb, ofono_answer_effects, ofono_answer_path, hap, hfind]

/-- Witness for C6 (amended): the concrete input of the counterexample. -/
theorem answer_untracked_noop_but_sets_startedAt_witness :
    (checkCommands wAnswerCex envNoCall).2 = [] ∧
    (checkCommands wAnswerCex envNoCall).1.callNumber = wAnswerCex.callNumber ∧
    (checkCommands wAnswerCex envNoCall).1.ofonoActivePath = none ∧
    (checkCommands wAnswerCex envNoCall).1.mailbox = none ∧
    (checkCommands wAnswerCex envNoCall).1.callStart = some envNoCall.now :=
  answer_untracked_noop_but_sets_startedAt wAnswerCex envNoCall "" false rfl rfl
    (by intro c hc; simp [envNoCall] at hc)

/-- C7 counterexample: a user whose technology was already GSM before the
call. `switch_to_2g_for_call` issues no switch for this call, yet
`restore_lte_after_call` still moves the user to LTE at call end. -/
theorem restore_overwrites_original_gsm :
    countRadioSets (switch_to_2g_for_call RadioMode.gsm).2 = 0 ∧
    (restore_lte_after_call (switch_to_2g_for_call RadioMode.gsm).1).1 = RadioMode.lte ∧
    countRadioSets (restore_lte_after_call (switch_to_2g_for_call RadioMode.gsm).1).2 = 1 ∧
    RadioMode.lte ≠ RadioMode.gsm := by decide

/-- C7 (amended): on the transition to Idle the controller sets the
technology to LTE exactly when the technology read at call end is GSM —
whether or not it switched it down for this call; technologies other than
GSM are never overwritten. -/
theorem restore_only_by_current_gsm (w : World) (env : PollEnv) (m : RadioMode)
    (hm : m ≠ RadioMode.gsm)
    (hlast : w.lastState ∈ callEndStates) (hcur : pollState env = "idle")
    (hmb : w.mailbox = none) :
    (restore_lte_after_call m).1 = m ∧
    countRadioSets (restore_lte_after_call m).2 = 0 ∧
    (restore_lte_after_call RadioMode.gsm).1 = RadioMode.lte ∧
    (daemonStep w env).1.radio = (restore_lte_after_call w.radio).1 := by
  refine ⟨?_, ?_, rfl, ?_⟩
  · cases m <;> first | rfl | exact absurd rfl hm
  · cases m <;> first | rfl | exact absurd rfl hm
  · have h1 : (daemonStep w env).1 = (pollPhase (checkCommands w env).1 env).1 := rfl
    rw [h1, checkCommands_none w env hmb]
    dsimp only
    rw [pollPhase_end w env hlast hcur]

/-- Witness for C7 (amended): an LTE user in a dialing call that ends. -/
theorem restore_only_by_current_gsm_witness :
    (restore_lte_after_call RadioMode.lte).1 = RadioMode.lte ∧
    countRadioSets (restore_lte_after_call RadioMode.lte).2 = 0 ∧
    (restore_lte_after_call RadioMode.gsm).1 = RadioMode.lte ∧
    (daemonStep wDialingMid envNoCall).1.radio
      = (restore_lte_after_call wDialingMid.radio).1 :=
  restore_only_by_current_gsm wDialingMid envNoCall RadioMode.lte (by decide)
    (by decide) rfl rfl

/-- C8: a Dial command first runs the radio switch (with the 2-second settle
sleep exactly when a switch was issued), strictly before the D-Bus Dial
relay, and the relayed number is the submitted number unchanged (with the
default caller-id setting); afterwards the technology is GSM. -/
theorem dial_forces_2g_before_relay (w : World) (env : PollEnv) (n : String)
    (b : Bool)
    (hmb : w.mailbox = some (MailboxContent.dict "dial" n b)) (hn : n ≠ "") :
    (checkCommands w env).2
      = (switch_to_2g_for_call w.radio).2 ++ [Effect.dbusDial n "default"] ∧
    (switch_to_2g_for_call w.radio).2
      = (if w.radio = RadioMode.gsm then [Effect.radioGet]
         else [Effect.radioGet, Effect.radioSet RadioMode.gsm, Effect.settleSleep]) ∧
    (checkCommands w env).1.radio = RadioMode.gsm := by
  refine ⟨?_, switch2g_snd w.radio, ?_⟩
  · simp [checkCommands, hmb, hn]
  · simp [checkCommands, hmb, hn, switch2g_fst]

/-- Witness for C8: `Dial("12025550123")` submitted while idle on LTE. -/
theorem dial_forces_2g_before_relay_witness :
    (checkCommands (dialScenarioStart "12025550123" [] RadioMode.lte) envNoCall).2
      = (switch_to_2g_for_call (dialScenarioStart "12025550123" [] RadioMode.lte).radio).2
          ++ [Effect.dbusDial "12025550123" "default"] ∧
    (switch_to_2g_for_call (dialScenarioStart "12025550123" [] RadioMode.lte).radio).2
      = (if (dialScenarioStart "12025550123" [] RadioMode.lte).radio = RadioMode.gsm
         then [Effect.radioGet]
         else [Effect.radioGet, Effect.radioSet RadioMode.gsm, Effect.settleSleep]) ∧
    (checkCommands (dialScenarioStart "12025550123" [] RadioMode.lte) envNoCall).1.radio
      = RadioMode.gsm :=
  dial_forces_2g_before_relay (dialScenarioStart "12025550123" [] RadioMode.lte)
    envNoCall "12025550123" false rfl (by decide)

/-- C9: `switch_to_2g_for_call` issues no switch and keeps the mode when the
technology already is GSM, and two consecutive invocations — with the
technology evolving only through the first invocation's own switch — issue
the underlying switch at most once. -/
theorem force_voice_compatible_at_most_one_switch (m : RadioMode) :
    (switch_to_2g_for_call RadioMode.gsm).1 = RadioMode.gsm ∧
    countRadioSets (switch_to_2g_for_call RadioMode.gsm).2 = 0 ∧
    countRadioSets ((switch_to_2g_for_call m).2
      ++ (switch_to_2g_for_call (switch_to_2g_for_call m).1).2) ≤ 1 := by
  cases m <;> decide

/-- C10: `set_speaker_mode(True)` clears the source mute as its first
command, before switching the output port to the speaker, so enabling the
speaker cancels a prior mute; `set_speaker_mode(False)` never touches the
mute state. -/
theorem set_speaker_true_unmutes_first (r : AudioRoute) :
    set_speaker_mode true =
      [["set-source-mute", "source.droid", "0"],
       ["set-sink-port", "sink.primary_output", "output-speaker"],
       ["set-source-port", "source.droid", "input-builtin_mic"]] ∧
    (applyPactlList r (set_speaker_mode true)).micMuted = false ∧
    (applyPactlList r (set_speaker_mode true)).outputPort = OutputPort.speaker ∧
    (applyPactlList r (set_speaker_mode false)).micMuted = r.micMuted :=
  ⟨rfl, rfl, rfl, rfl⟩

end Flick
